import Mathlib

/-!
Verification development for the MLXR Python SDK client layer
(`src/sdks/python/mlxrunner/`): transport (`transport.py`), stream decoder,
error classification (`exceptions.py`), dialect adapters (`openai_api.py`,
`ollama_api.py`) and data model (`types.py`).

Modelling conventions:
* JSON values (`json.loads` results, request/response dicts) are `JValue`;
  dicts are insertion-ordered association lists, as in Python 3.7+.
* `json.loads` itself is external library code, so the stream decoder is
  parameterised by a parse function `parse : String → Except String J`
  (`Except.error` models a raised `json.JSONDecodeError` with its message).
* Python floats in request parameters are modelled as rationals; the claims
  only compare them for equality with literal defaults such as 0.0.
* A raised exception is a returned `MLXRErr` record (class, message,
  status_code, response), mirroring the `MLXRError` attribute set.
* `logger.warning` diagnostics are collected in a `warnings` list; the
  `repr` of the offending payload is modelled as the payload text itself.
-/

namespace MLXR

/-- Model of a Python JSON value (`json.loads` output / request dict). -/
inductive JValue where
  | jnull : JValue
  | jbool : Bool → JValue
  | jnum : Int → JValue
  | jrat : ℚ → JValue
  | jstr : String → JValue
  | jarr : List JValue → JValue
  | jobj : List (String × JValue) → JValue

/-- `d.get(k)` on a Python dict modelled as an association list
(first binding wins; JSON objects have unique keys). -/
def jGet (fields : List (String × JValue)) (k : String) : Option JValue :=
  (fields.find? (fun p => p.1 == k)).map (fun p => p.2)

/-- `d[k] = v` on a Python dict: replace the value in place if the key is
present, otherwise append the new binding. -/
def dictSet (fields : List (String × JValue)) (k : String) (v : JValue) :
    List (String × JValue) :=
  match fields with
  | [] => [(k, v)]
  | (k0, v0) :: rest =>
    if k0 = k then (k0, v) :: rest else (k0, v0) :: dictSet rest k v

/-- `d |= kwargs` / `d.update(kwargs)` on Python dicts. -/
def dictUpdate (fields kwargs : List (String × JValue)) :
    List (String × JValue) :=
  kwargs.foldl (fun d p => dictSet d p.1 p.2) fields

/-- The exception classes of `exceptions.py` (the `MLXRError` hierarchy).
`apiError` is the generic base `MLXRAPIError` raised for an unrecognised
status ≥ 400. -/
inductive ErrClass where
  | connectionError
  | timeoutError
  | apiError
  | authenticationError
  | permissionError
  | notFoundError
  | rateLimitError
  | serverError
  | validationError
  | modelError
  | streamError
deriving DecidableEq, Repr

/-- A raised `MLXRError`: its class plus the three attributes set by
`MLXRError.__init__` (`message`, `status_code`, `response`).  The message is
a `JValue` because `_request` passes through whatever
`error_data.get("error", ...).get("message", ...)` returned. -/
structure MLXRErr where
  cls : ErrClass
  message : JValue
  status_code : Option Int
  response : Option JValue

/-- `exceptions.raise_for_status`: returns the exception that the Python
function raises for this status, or `none` when it falls through without
raising (status < 400).  Each specific subclass constructor hard-codes its
own `status_code` (e.g. `MLXRServerError` stores 500 even when the actual
status was 599) and accepts no `response`, exactly as in `exceptions.py`;
only the generic `MLXRAPIError` branch forwards `status_code` and
`response`. -/
def raise_for_status (status_code : Int) (message : JValue)
    (response : Option JValue) : Option MLXRErr :=
  if status_code = 401 then
    some ⟨.authenticationError, message, some 401, none⟩
  else if status_code = 403 then
    some ⟨.permissionError, message, some 403, none⟩
  else if status_code = 404 then
    some ⟨.notFoundError, message, some 404, none⟩
  else if status_code = 422 then
    some ⟨.validationError, message, some 422, none⟩
  else if status_code = 429 then
    some ⟨.rateLimitError, message, some 429, none⟩
  else if status_code ≥ 500 then
    some ⟨.serverError, message, some 500, none⟩
  else if status_code ≥ 400 then
    some ⟨.apiError, message, some status_code, response⟩
  else
    none

/-- An HTTP response as the transport sees it: status, raw text, and the
result of `response.json()` (`none` when the body is not valid JSON, in
which case `response.json()` raises and the `except Exception` branch
runs). -/
structure HttpResponse where
  status_code : Int
  text : String
  jsonBody : Option JValue

/-- The error-message/error-data extraction shared by `_request` and
`_stream` (transport.py lines 119-125 / 156-160):
`error_data = response.json(); error_message =
error_data.get("error", {}).get("message", response.text)`, with any
exception (non-JSON body, or `.get` on a non-dict) collapsing to
`(response.text, None)`. -/
def extractErrorInfo (r : HttpResponse) : JValue × Option JValue :=
  match r.jsonBody with
  | none => (.jstr r.text, none)
  | some (.jobj fields) =>
    match jGet fields "error" with
    | some (.jobj efields) =>
      match jGet efields "message" with
      | some m => (m, some (.jobj fields))
      | none => (.jstr r.text, some (.jobj fields))
    | some _ => (.jstr r.text, none)
    | none => (.jstr r.text, some (.jobj fields))
  | some _ => (.jstr r.text, none)

/-- The error branch of `BaseTransport._request` (lines 118-126): for a
status ≥ 400 it extracts message and body and calls `raise_for_status`
with the captured `error_data`; otherwise no error is raised. -/
def requestErrorCheck (r : HttpResponse) : Option MLXRErr :=
  if r.status_code ≥ 400 then
    let info := extractErrorInfo r
    raise_for_status r.status_code info.1 info.2
  else
    none

/-- The opening status check of `BaseTransport._stream` (lines 155-161):
same extraction, but `raise_for_status` is called *without* the
`response` argument, so the captured body is never attached. -/
def streamErrorCheck (r : HttpResponse) : Option MLXRErr :=
  if r.status_code ≥ 400 then
    let info := extractErrorInfo r
    raise_for_status r.status_code info.1 none
  else
    none

/-- Python `str.strip()` (no argument): remove leading and trailing
whitespace.  Defined structurally over the character list so that the
kernel can evaluate it on concrete lines. -/
def pyStrip (s : String) : String :=
  ⟨((s.data.dropWhile Char.isWhitespace).reverse.dropWhile
      Char.isWhitespace).reverse⟩

/-- Python `s.startswith(p)`. -/
def pyStartsWith (s p : String) : Bool :=
  p.data.isPrefixOf s.data

/-- Python `s[n:]` (drop the first `n` characters). -/
def pyDrop (s : String) (n : Nat) : String :=
  ⟨s.data.drop n⟩

/-- The framing rule that the `_stream` decode loop (transport.py lines
164-184) applies to one raw line, determined by the `if`/`elif` chain on
the stripped line: blank lines are separators, a `data: ` prefix selects
the event-stream (SSE) rule, a leading opening brace selects the
newline-delimited (Ollama) rule, and anything else falls off the chain. -/
inductive LineRule where
  | blank
  | eventStream
  | newlineDelimited
  | skip
deriving DecidableEq, Repr

/-- See `LineRule`.  The loop first strips the line, then tests
`line.startswith("data: ")`, then `line.startswith("{")`. -/
def lineRule (line : String) : LineRule :=
  let l := pyStrip line
  if l = "" then .blank
  else if pyStartsWith l "data: " then .eventStream
  else if pyStartsWith l "\x7b" then .newlineDelimited
  else .skip

/-- Everything a consumer observes from one streamed call: the decoded
events in order, the `logger.warning` diagnostics in order, and the
terminal outcome (`none` = the iterator finished normally, `some e` = the
exception `e` was raised after the listed events). -/
structure StreamEvents (J : Type) where
  events : List J
  warnings : List String
  err : Option MLXRErr

/-- Prepend one yielded event to the observations of the rest of the
stream. -/
def consEvent (j : J) (r : StreamEvents J) : StreamEvents J :=
  ⟨j :: r.events, r.warnings, r.err⟩

/-- Prepend one `logger.warning` diagnostic to the observations of the
rest of the stream. -/
def consWarning (w : String) (r : StreamEvents J) : StreamEvents J :=
  ⟨r.events, w :: r.warnings, r.err⟩

/-- The decode loop of `BaseTransport._stream` (transport.py lines
164-184), parameterised by the external `json.loads` (`parse`).  Per
stripped line: blank → `continue`; `data: ` prefix → drop the 6-character
prefix, `break` on the `[DONE]` sentinel, yield the parsed payload, or on
a parse failure log a warning and `continue`; leading `{` → yield the
parsed line, or on a parse failure raise `MLXRStreamError`, ending the
stream; any other line falls through the `if`/`elif` chain and is
ignored. -/
def decodeLines (parse : String → Except String J) :
    List String → StreamEvents J
  | [] => ⟨[], [], none⟩
  | line :: rest =>
    let l := pyStrip line
    match lineRule line with
    | .blank => decodeLines parse rest
    | .eventStream =>
      let data := pyDrop l 6
      if data = "[DONE]" then ⟨[], [], none⟩
      else
        match parse data with
        | .ok j => consEvent j (decodeLines parse rest)
        | .error _ =>
          consWarning ("Malformed SSE data line encountered: " ++ data)
            (decodeLines parse rest)
    | .newlineDelimited =>
      match parse l with
      | .ok j => consEvent j (decodeLines parse rest)
      | .error e =>
        ⟨[], [], some ⟨.streamError, .jstr ("Failed to parse JSON: " ++ e),
          none, none⟩⟩
    | .skip => decodeLines parse rest

/-- The decode loop of `AsyncTransport._stream` (transport.py lines
334-354), embedded separately from its own source text; the `async for`
suspension has no observable effect on the decoded sequence. -/
def asyncDecodeLines (parse : String → Except String J) :
    List String → StreamEvents J
  | [] => ⟨[], [], none⟩
  | line :: rest =>
    let l := pyStrip line
    if l = "" then asyncDecodeLines parse rest
    else if pyStartsWith l "data: " then
      let data := pyDrop l 6
      if data = "[DONE]" then ⟨[], [], none⟩
      else
        match parse data with
        | .ok j => consEvent j (asyncDecodeLines parse rest)
        | .error _ =>
          consWarning ("Malformed SSE data line encountered: " ++ data)
            (asyncDecodeLines parse rest)
    else if pyStartsWith l "\x7b" then
      match parse l with
      | .ok j => consEvent j (asyncDecodeLines parse rest)
      | .error e =>
        ⟨[], [], some ⟨.streamError, .jstr ("Failed to parse JSON: " ++ e),
          none, none⟩⟩
    else asyncDecodeLines parse rest

/-- The outcome of issuing the underlying httpx call: either a response
arrived, or one of the httpx exception classes caught by the transport
was raised. -/
inductive NetEvent where
  | got : HttpResponse → NetEvent
  | timeoutExc : String → NetEvent
  | connectExc : String → NetEvent
  | httpExc : String → NetEvent

/-- Result of a unary `_request`: the parsed JSON body, a raised
`MLXRError`, or the uncaught `ValueError` from `response.json()` on a
successful response whose body is not JSON. -/
inductive UnaryResult where
  | ok : JValue → UnaryResult
  | err : MLXRErr → UnaryResult
  | jsonDecodeFailure : UnaryResult

/-- `BaseTransport._request` (transport.py lines 99-136): classify a
status ≥ 400 via `raise_for_status`, return `{}` for 204, otherwise the
parsed body; map the httpx exceptions to the SDK error classes.  `method`,
`path` and `json_data` are forwarded to httpx and do not influence the
outcome computed from the response. -/
def requestCall (method path : String) (json_data : Option JValue)
    (ev : NetEvent) : UnaryResult :=
  match ev with
  | .got r =>
    match requestErrorCheck r with
    | some e => .err e
    | none =>
      if r.status_code = 204 then .ok (.jobj [])
      else
        match r.jsonBody with
        | some j => .ok j
        | none => .jsonDecodeFailure
  | .timeoutExc m =>
    .err ⟨.timeoutError, .jstr ("Request timed out: " ++ m), none, none⟩
  | .connectExc m =>
    .err ⟨.connectionError, .jstr ("Failed to connect: " ++ m), none, none⟩
  | .httpExc m =>
    .err ⟨.connectionError, .jstr ("HTTP error: " ++ m), none, none⟩

/-- `AsyncTransport._request` (transport.py lines 269-306), embedded
separately from its own source text. -/
def asyncRequestCall (method path : String) (json_data : Option JValue)
    (ev : NetEvent) : UnaryResult :=
  match ev with
  | .got r =>
    match requestErrorCheck r with
    | some e => .err e
    | none =>
      if r.status_code = 204 then .ok (.jobj [])
      else
        match r.jsonBody with
        | some j => .ok j
        | none => .jsonDecodeFailure
  | .timeoutExc m =>
    .err ⟨.timeoutError, .jstr ("Request timed out: " ++ m), none, none⟩
  | .connectExc m =>
    .err ⟨.connectionError, .jstr ("Failed to connect: " ++ m), none, none⟩
  | .httpExc m =>
    .err ⟨.connectionError, .jstr ("HTTP error: " ++ m), none, none⟩

/-- `BaseTransport._stream` (transport.py lines 138-191) as observed by a
consumer that drains the iterator: classify the opening status (failing
atomically, before any event), then run the decode loop over the body
lines; httpx exceptions map to the SDK error classes.  `method`, `path`
and `json_data` are forwarded to httpx and do not influence decoding. -/
def streamCall (parse : String → Except String J) (method path : String)
    (json_data : Option JValue) (ev : NetEvent)
    (bodyLines : List String) : StreamEvents J :=
  match ev with
  | .got r =>
    match streamErrorCheck r with
    | some e => ⟨[], [], some e⟩
    | none => decodeLines parse bodyLines
  | .timeoutExc m =>
    ⟨[], [], some ⟨.timeoutError, .jstr ("Stream timed out: " ++ m), none,
      none⟩⟩
  | .connectExc m =>
    ⟨[], [], some ⟨.connectionError, .jstr ("Failed to connect: " ++ m),
      none, none⟩⟩
  | .httpExc m =>
    ⟨[], [], some ⟨.connectionError, .jstr ("HTTP error: " ++ m), none,
      none⟩⟩

/-- `AsyncTransport._stream` (transport.py lines 308-361), embedded
separately from its own source text. -/
def asyncStreamCall (parse : String → Except String J)
    (method path : String) (json_data : Option JValue) (ev : NetEvent)
    (bodyLines : List String) : StreamEvents J :=
  match ev with
  | .got r =>
    match streamErrorCheck r with
    | some e => ⟨[], [], some e⟩
    | none => asyncDecodeLines parse bodyLines
  | .timeoutExc m =>
    ⟨[], [], some ⟨.timeoutError, .jstr ("Stream timed out: " ++ m), none,
      none⟩⟩
  | .connectExc m =>
    ⟨[], [], some ⟨.connectionError, .jstr ("Failed to connect: " ++ m),
      none, none⟩⟩
  | .httpExc m =>
    ⟨[], [], some ⟨.connectionError, .jstr ("HTTP error: " ++ m), none,
      none⟩⟩

/-- The filesystem facts `_check_socket_path` consults about the socket
path: `os.path.exists` and the two `os.access` bits. -/
structure SocketStatus where
  present : Bool
  readable : Bool
  writable : Bool

/-- `BaseTransport.DEFAULT_SOCKET_PATH` (with `~` left unexpanded;
`os.path.expanduser` is external). -/
def DEFAULT_SOCKET_PATH : String :=
  "~/Library/Application Support/MLXRunner/run/mlxrunner.sock"

/-- `transport._check_socket_path` (lines 42-54): a missing socket raises
`MLXRConnectionError`; an existing socket without both read and write
access (`os.access(path, R_OK | W_OK)`) raises `MLXRPermissionError`,
whose constructor stores `status_code=403`. -/
def check_socket_path (socket_path : String) (st : SocketStatus) :
    Option MLXRErr :=
  if !st.present then
    some ⟨.connectionError,
      .jstr ("Socket not found at " ++ socket_path ++
        ". Is the daemon running?"), none, none⟩
  else if !(st.readable && st.writable) then
    some ⟨.permissionError,
      .jstr ("Permission denied for socket at " ++ socket_path ++
        ". Check file permissions and ownership."), some 403, none⟩
  else
    none

/-- Python `socket_path or DEFAULT_SOCKET_PATH`: `None` and the empty
string are falsy. -/
def resolveSocketPath (socket_path : Option String) : String :=
  match socket_path with
  | some p => if p = "" then DEFAULT_SOCKET_PATH else p
  | none => DEFAULT_SOCKET_PATH

/-- Python truthiness of an `Optional[str]` (`if base_url:`). -/
def isTruthy : Option String → Bool
  | some s => !(s == "")
  | none => false

/-- The precondition check performed by `BaseTransport.__init__` (lines
66-97): with a truthy `base_url` an HTTP client is built and no socket
check runs; otherwise the socket target is validated by
`_check_socket_path` before the client is created.  Returns the
construction-time exception, if any.  `AsyncTransport.__init__` (lines
233-267) performs the same check. -/
def transportInitCheck (socket_path base_url : Option String)
    (st : SocketStatus) : Option MLXRErr :=
  if isTruthy base_url then none
  else check_socket_path (resolveSocketPath socket_path) st

/-- The translation of the conditional-assignment statement
`if x is not None: request_data[k] = v` used throughout the adapters. -/
def optSet (d : List (String × JValue)) (k : String) :
    Option JValue → List (String × JValue)
  | some v => dictSet d k v
  | none => d

/-- The `request_data` assembly of `ChatCompletions.create`
(openai_api.py lines 72-94).  The six core entries are always present;
`stop`, `max_tokens`, `logit_bias` and `user` are added only when not
`None`; the two penalties only when `!= 0.0`; finally
`request_data |= kwargs`.  Python defaults: `temperature=0.7`,
`top_p=1.0`, `n=1`, `stream=False`, both penalties `0.0`, the optional
parameters `None`. -/
def ChatCompletions.create_body (model : String) (messages : List JValue)
    (temperature top_p : ℚ) (n : Int) (stream : Bool)
    (stop : Option JValue) (max_tokens : Option Int)
    (presence_penalty frequency_penalty : ℚ) (logit_bias : Option JValue)
    (user : Option String) (kwargs : List (String × JValue)) :
    List (String × JValue) :=
  let request_data : List (String × JValue) :=
    [("model", .jstr model), ("messages", .jarr messages),
     ("temperature", .jrat temperature), ("top_p", .jrat top_p),
     ("n", .jnum n), ("stream", .jbool stream)]
  let request_data := optSet request_data "stop" stop
  let request_data :=
    optSet request_data "max_tokens" (max_tokens.map JValue.jnum)
  let request_data :=
    if presence_penalty ≠ 0.0 then
      dictSet request_data "presence_penalty" (.jrat presence_penalty)
    else request_data
  let request_data :=
    if frequency_penalty ≠ 0.0 then
      dictSet request_data "frequency_penalty" (.jrat frequency_penalty)
    else request_data
  let request_data := optSet request_data "logit_bias" logit_bias
  let request_data := optSet request_data "user" (user.map JValue.jstr)
  dictUpdate request_data kwargs

/-- The `request_data` assembly of `Completions.create` (openai_api.py
lines 168-196): same scheme as chat, plus `logprobs` and `best_of` added
when not `None` and `echo` added when truthy (default `False`). -/
def Completions.create_body (model : String) (prompt : JValue)
    (temperature top_p : ℚ) (n : Int) (stream : Bool)
    (stop : Option JValue) (max_tokens : Option Int)
    (presence_penalty frequency_penalty : ℚ) (logit_bias : Option JValue)
    (user : Option String) (logprobs : Option Int) (echo : Bool)
    (best_of : Option Int) (kwargs : List (String × JValue)) :
    List (String × JValue) :=
  let request_data : List (String × JValue) :=
    [("model", .jstr model), ("prompt", prompt),
     ("temperature", .jrat temperature), ("top_p", .jrat top_p),
     ("n", .jnum n), ("stream", .jbool stream)]
  let request_data := optSet request_data "stop" stop
  let request_data :=
    optSet request_data "max_tokens" (max_tokens.map JValue.jnum)
  let request_data :=
    if presence_penalty ≠ 0.0 then
      dictSet request_data "presence_penalty" (.jrat presence_penalty)
    else request_data
  let request_data :=
    if frequency_penalty ≠ 0.0 then
      dictSet request_data "frequency_penalty" (.jrat frequency_penalty)
    else request_data
  let request_data := optSet request_data "logit_bias" logit_bias
  let request_data := optSet request_data "user" (user.map JValue.jstr)
  let request_data :=
    optSet request_data "logprobs" (logprobs.map JValue.jnum)
  let request_data :=
    if echo then dictSet request_data "echo" (.jbool echo)
    else request_data
  let request_data :=
    optSet request_data "best_of" (best_of.map JValue.jnum)
  dictUpdate request_data kwargs

/-- `types.Usage`: three required integer fields and no validator — the
model itself imposes no relation between them. -/
structure Usage where
  prompt_tokens : Int
  completion_tokens : Int
  total_tokens : Int
deriving DecidableEq, Repr

/-- Pydantic validation of `Usage` from a JSON value. -/
def Usage.ofJson : JValue → Except String Usage
  | .jobj f =>
    match jGet f "prompt_tokens", jGet f "completion_tokens",
        jGet f "total_tokens" with
    | some (.jnum p), some (.jnum c), some (.jnum t) => .ok ⟨p, c, t⟩
    | _, _, _ => .error "Usage: validation error"
  | _ => .error "Usage: validation error"

/-- Validation of an `Optional[str]` field value (absent or JSON null →
`None`). -/
def decodeOptStr : Option JValue → Except String (Option String)
  | none => .ok none
  | some .jnull => .ok none
  | some (.jstr s) => .ok (some s)
  | some _ => .error "expected string or null"

/-- Validation of an `Optional[Dict[str, Any]]` field value. -/
def decodeOptDict : Option JValue →
    Except String (Option (List (String × JValue)))
  | none => .ok none
  | some .jnull => .ok none
  | some (.jobj f) => .ok (some f)
  | some _ => .error "expected object or null"

/-- `types.ChatMessage`: required literal role, optional content, name
and function-call payload. -/
structure ChatMessage where
  role : String
  content : Option String
  name : Option String
  function_call : Option (List (String × JValue))

/-- Pydantic validation of `ChatMessage`: `role` must be one of the four
`Literal` values. -/
def ChatMessage.ofJson : JValue → Except String ChatMessage
  | .jobj f =>
    match jGet f "role" with
    | some (.jstr r) =>
      if r == "system" || r == "user" || r == "assistant" ||
          r == "function" then
        match decodeOptStr (jGet f "content"),
            decodeOptStr (jGet f "name"),
            decodeOptDict (jGet f "function_call") with
        | .ok c, .ok n, .ok fc => .ok ⟨r, c, n, fc⟩
        | _, _, _ => .error "ChatMessage: validation error"
      else .error "ChatMessage: invalid role"
    | _ => .error "ChatMessage: validation error"
  | _ => .error "ChatMessage: validation error"

/-- `types.ChatCompletionChoice`: index, message, optional finish reason
drawn from the closed `Literal` set. -/
structure ChatCompletionChoice where
  index : Int
  message : ChatMessage
  finish_reason : Option String

/-- Pydantic validation of `ChatCompletionChoice`. -/
def ChatCompletionChoice.ofJson : JValue → Except String ChatCompletionChoice
  | .jobj f =>
    match jGet f "index", jGet f "message" with
    | some (.jnum i), some m =>
      match ChatMessage.ofJson m with
      | .ok msg =>
        match jGet f "finish_reason" with
        | none => .ok ⟨i, msg, none⟩
        | some .jnull => .ok ⟨i, msg, none⟩
        | some (.jstr fr) =>
          if fr == "stop" || fr == "length" || fr == "function_call" ||
              fr == "content_filter" then
            .ok ⟨i, msg, some fr⟩
          else .error "ChatCompletionChoice: invalid finish_reason"
        | some _ => .error "ChatCompletionChoice: validation error"
      | .error e => .error e
    | _, _ => .error "ChatCompletionChoice: validation error"
  | _ => .error "ChatCompletionChoice: validation error"

/-- `types.ChatCompletion`: the typed non-streaming chat result. -/
structure ChatCompletion where
  id : String
  object : String
  created : Int
  model : String
  choices : List ChatCompletionChoice
  usage : Option Usage

/-- Pydantic validation of `ChatCompletion` from the parsed response body
(`ChatCompletion(**response)` in `ChatCompletions._create`).  `object`
defaults to its literal; `usage` is optional with default `None`. -/
def ChatCompletion.ofJson : JValue → Except String ChatCompletion
  | .jobj f =>
    match jGet f "id", jGet f "created", jGet f "model",
        jGet f "choices" with
    | some (.jstr i), some (.jnum cr), some (.jstr md),
        some (.jarr cs) =>
      match cs.mapM ChatCompletionChoice.ofJson with
      | .ok choices =>
        let obj := match jGet f "object" with
          | none => Except.ok "chat.completion"
          | some (.jstr o) =>
            if o == "chat.completion" then Except.ok o
            else Except.error "ChatCompletion: invalid object"
          | some _ => Except.error "ChatCompletion: validation error"
        let usage := match jGet f "usage" with
          | none => Except.ok none
          | some .jnull => Except.ok none
          | some u => (Usage.ofJson u).map some
        match obj, usage with
        | .ok o, .ok u => .ok ⟨i, o, cr, md, choices, u⟩
        | _, _ => .error "ChatCompletion: validation error"
      | .error e => .error e
    | _, _, _, _ => .error "ChatCompletion: validation error"
  | _ => .error "ChatCompletion: validation error"

/-- Outcome of a non-streaming `ChatCompletions.create` call as the
caller sees it. -/
inductive ChatCreateResult where
  | ok : ChatCompletion → ChatCreateResult
  | err : MLXRErr → ChatCreateResult
  | validationFailure : String → ChatCreateResult
  | jsonDecodeFailure : ChatCreateResult

/-- `ChatCompletions._create` (openai_api.py lines 101-104): POST the
request body to `/v1/chat/completions` through the transport, then build
`ChatCompletion(**response)` from the returned JSON. -/
def ChatCompletions.createUnary (request_data : List (String × JValue))
    (ev : NetEvent) : ChatCreateResult :=
  match requestCall "POST" "/v1/chat/completions"
      (some (.jobj request_data)) ev with
  | .ok j =>
    match ChatCompletion.ofJson j with
    | .ok cc => .ok cc
    | .error e => .validationFailure e
  | .err e => .err e
  | .jsonDecodeFailure => .jsonDecodeFailure

/-! ### Helper lemmas and concrete fixtures -/

/-- The class of the raised error does not depend on the `response`
argument of `raise_for_status`. -/
theorem raise_for_status_cls_congr (s : Int) (m : JValue)
    (b b' : Option JValue) :
    (raise_for_status s m b).map MLXRErr.cls
      = (raise_for_status s m b').map MLXRErr.cls := by
  unfold raise_for_status
  split_ifs <;> rfl

/-- A concrete stand-in for `json.loads` used to evaluate the decoder in
witnesses: it accepts three fixed JSON texts and rejects everything
else. -/
def toyParse : String → Except String JValue
  | "\x7b\x7d" => .ok (.jobj [])
  | "\x7b\x22a\x22:1\x7d" => .ok (.jobj [("a", .jnum 1)])
  | "\x7b\x22b\x22:2\x7d" => .ok (.jobj [("b", .jnum 2)])
  | s => .error ("Expecting value: " ++ s)

/-! ### The claims -/

/-- C4: the error classifier maps 401 to Authentication, 403 to
Permission, 404 to NotFound, 422 to Validation, 429 to RateLimit, every
status ≥ 500 (including 599) to Server, and every other status ≥ 400 to
the generic API error; it raises nothing for status < 400; and the unary
path (`_request`) and the opening response of a stream (`_stream`)
classify every response to the same category. -/
theorem C4_error_classifier (s : Int) (m : JValue) (b : Option JValue)
    (r : HttpResponse) :
    ((raise_for_status 401 m b).map MLXRErr.cls
        = some .authenticationError)
    ∧ ((raise_for_status 403 m b).map MLXRErr.cls
        = some .permissionError)
    ∧ ((raise_for_status 404 m b).map MLXRErr.cls = some .notFoundError)
    ∧ ((raise_for_status 422 m b).map MLXRErr.cls
        = some .validationError)
    ∧ ((raise_for_status 429 m b).map MLXRErr.cls = some .rateLimitError)
    ∧ (s ≥ 500 →
        (raise_for_status s m b).map MLXRErr.cls = some .serverError)
    ∧ (s ≥ 400 → s < 500 → s ≠ 401 → s ≠ 403 → s ≠ 404 → s ≠ 422 →
        s ≠ 429 →
        (raise_for_status s m b).map MLXRErr.cls = some .apiError)
    ∧ (s < 400 → raise_for_status s m b = none)
    ∧ ((requestErrorCheck r).map MLXRErr.cls
        = (streamErrorCheck r).map MLXRErr.cls) := by
  refine ⟨?_, ?_, ?_, ?_, ?_, ?_, ?_, ?_, ?_⟩
  · norm_num [raise_for_status]
  · norm_num [raise_for_status]
  · norm_num [raise_for_status]
  · norm_num [raise_for_status]
  · norm_num [raise_for_status]
  · intro h
    unfold raise_for_status
    split_ifs <;> first | rfl | omega
  · intro h1 h2 h3 h4 h5 h6 h7
    unfold raise_for_status
    split_ifs <;> first | rfl | omega
  · intro h
    unfold raise_for_status
    split_ifs <;> first | rfl | omega
  · unfold requestErrorCheck streamErrorCheck
    split_ifs
    · exact raise_for_status_cls_congr _ _ _ _
    · rfl

/-- Witness for C4 at concrete inputs: 599 classifies to Server, 418 to
the generic API error, 204 raises nothing, and a concrete 404 response is
classified identically on the unary and stream paths. -/
theorem C4_error_classifier_witness :
    ((raise_for_status 599 (.jstr "boom") none).map MLXRErr.cls
        = some .serverError)
    ∧ ((raise_for_status 418 (.jstr "teapot") none).map MLXRErr.cls
        = some .apiError)
    ∧ (raise_for_status 204 (.jstr "ok") none = none)
    ∧ ((requestErrorCheck ⟨404, "missing", none⟩).map MLXRErr.cls
        = (streamErrorCheck ⟨404, "missing", none⟩).map MLXRErr.cls) := by
  refine ⟨?_, ?_, ?_, ?_⟩
  · exact (C4_error_classifier 599 (.jstr "boom") none
      ⟨0, "", none⟩).2.2.2.2.2.1 (by norm_num)
  · exact (C4_error_classifier 418 (.jstr "teapot") none
      ⟨0, "", none⟩).2.2.2.2.2.2.1 (by norm_num) (by norm_num)
      (by norm_num) (by norm_num) (by norm_num) (by norm_num)
      (by norm_num)
  · exact (C4_error_classifier 204 (.jstr "ok") none
      ⟨0, "", none⟩).2.2.2.2.2.2.2.1 (by norm_num)
  · exact (C4_error_classifier 0 .jnull none
      ⟨404, "missing", none⟩).2.2.2.2.2.2.2.2

/-- C6 counterexample: the transport-level socket permission failure is
NOT a condition distinct from the API-level 403 Permission error.  A
client constructed over a socket that exists but is not writable raises
`MLXRPermissionError` — the very class `raise_for_status` raises for an
API 403 — and it carries the same `status_code` 403. -/
theorem C6_socket_check_counterexample :
    ((transportInitCheck (some "/tmp/mlxr.sock") none
        ⟨true, true, false⟩).map MLXRErr.cls
      = (raise_for_status 403 (.jstr "Forbidden") none).map MLXRErr.cls)
    ∧ ((transportInitCheck (some "/tmp/mlxr.sock") none
        ⟨true, true, false⟩).map MLXRErr.cls = some .permissionError)
    ∧ ((transportInitCheck (some "/tmp/mlxr.sock") none
        ⟨true, true, false⟩).map MLXRErr.status_code = some (some 403))
    ∧ ((raise_for_status 403 (.jstr "Forbidden") none).map
        MLXRErr.status_code = some (some 403)) :=
  ⟨rfl, rfl, rfl, rfl⟩

/-- C6 as amended: for a socket target the precondition is checked at
construction time — a missing socket raises `MLXRConnectionError` and an
existing socket without both read and write access raises
`MLXRPermissionError`; that error is however the same exception class
(with the same stored status code 403) as the API-level 403 Permission
error, not a distinct condition.  With a truthy `base_url` no socket
check runs. -/
theorem C6_socket_check_amended (sp : Option String) (st : SocketStatus)
    (burl : Option String) :
    (st.present = false →
      (transportInitCheck sp none st).map MLXRErr.cls
        = some .connectionError)
    ∧ (st.present = true → (st.readable && st.writable) = false →
        (transportInitCheck sp none st).map MLXRErr.cls
          = some .permissionError
        ∧ (transportInitCheck sp none st).map MLXRErr.status_code
          = some (some 403))
    ∧ (st.present = true → st.readable = true → st.writable = true →
        transportInitCheck sp none st = none)
    ∧ (isTruthy burl = true → transportInitCheck sp burl st = none) := by
  refine ⟨?_, ?_, ?_, ?_⟩
  · intro h
    simp [transportInitCheck, isTruthy, check_socket_path, h]
  · intro h1 h2
    simp [transportInitCheck, isTruthy, check_socket_path, h1, h2]
  · intro h1 h2 h3
    simp [transportInitCheck, isTruthy, check_socket_path, h1, h2, h3]
  · intro h
    simp [transportInitCheck, h]

/-- Witness for the amended C6 at concrete socket states. -/
theorem C6_socket_check_amended_witness :
    ((transportInitCheck (some "/tmp/mlxr.sock") none
        ⟨false, false, false⟩).map MLXRErr.cls = some .connectionError)
    ∧ ((transportInitCheck (some "/tmp/mlxr.sock") none
        ⟨true, false, true⟩).map MLXRErr.cls = some .permissionError)
    ∧ (transportInitCheck (some "/tmp/mlxr.sock") none
        ⟨true, true, true⟩ = none)
    ∧ (transportInitCheck none (some "http://localhost:11434")
        ⟨false, false, false⟩ = none) := by
  refine ⟨?_, ?_, ?_, ?_⟩
  · exact (C6_socket_check_amended (some "/tmp/mlxr.sock")
      ⟨false, false, false⟩ none).1 rfl
  · exact ((C6_socket_check_amended (some "/tmp/mlxr.sock")
      ⟨true, false, true⟩ none).2.1 rfl rfl).1
  · exact (C6_socket_check_amended (some "/tmp/mlxr.sock")
      ⟨true, true, true⟩ none).2.2.1 rfl rfl rfl
  · exact (C6_socket_check_amended none ⟨false, false, false⟩
      (some "http://localhost:11434")).2.2.2 rfl

/-- C7 counterexample: classified failures do NOT carry the captured raw
body, nor always the actual status code.  A 401 response whose JSON body
was captured raises `MLXRAuthenticationError` with `response=None` (the
subclass constructor accepts no body), and a 599 response raises
`MLXRServerError` whose stored status code is 500, not 599. -/
theorem C7_error_propagation_counterexample :
    (requestErrorCheck ⟨401, "auth failed",
        some (.jobj [("error", .jobj [("message", .jstr "bad key")])])⟩
      = some ⟨.authenticationError, .jstr "bad key", some 401, none⟩)
    ∧ ((some (JValue.jobj [("error",
        .jobj [("message", .jstr "bad key")])]) : Option JValue).isSome
      = true)
    ∧ (requestErrorCheck ⟨599, "upstream exploded", none⟩
      = some ⟨.serverError, .jstr "upstream exploded", some 500, none⟩) :=
  ⟨rfl, rfl, rfl⟩

/-- The `status_code` each specific exception constructor of
`exceptions.py` stores unconditionally: 401 for
`MLXRAuthenticationError`, 403 for `MLXRPermissionError`, 404 for
`MLXRNotFoundError`, 422 for `MLXRValidationError`, 429 for
`MLXRRateLimitError`, 500 for `MLXRServerError`; the remaining classes
have no fixed code (`none`) — the generic `MLXRAPIError` receives it as
an argument, the transport-level classes leave it unset. -/
def subclassStatusCode : ErrClass → Option Int
  | .authenticationError => some 401
  | .permissionError => some 403
  | .notFoundError => some 404
  | .validationError => some 422
  | .rateLimitError => some 429
  | .serverError => some 500
  | _ => none

/-- C7 as amended: every failing response (status ≥ 400) raises on both
the unary and the stream path, always carrying the extracted human
message; the captured structured body is attached only when the status
classifies to the generic API category on the unary path (where the
actual status code is also carried); the specific categories, and every
stream-opening failure, carry `response=None`; and every specific class
stores its fixed class status code (`subclassStatusCode`) rather than
the actual status — in particular any status ≥ 500 is surfaced with
stored code 500 — on both paths. -/
theorem C7_error_propagation_amended (r : HttpResponse)
    (h : r.status_code ≥ 400) :
    (∀ e, requestErrorCheck r = some e →
      e.message = (extractErrorInfo r).1
      ∧ (e.cls = .apiError →
          e.response = (extractErrorInfo r).2
          ∧ e.status_code = some r.status_code)
      ∧ (e.cls ≠ .apiError → e.response = none))
    ∧ (∀ e, streamErrorCheck r = some e →
        e.message = (extractErrorInfo r).1 ∧ e.response = none)
    ∧ (∀ e, requestErrorCheck r = some e → e.cls ≠ .apiError →
        e.status_code = subclassStatusCode e.cls)
    ∧ (∀ e, streamErrorCheck r = some e → e.cls ≠ .apiError →
        e.status_code = subclassStatusCode e.cls)
    ∧ (r.status_code ≥ 500 →
        (∀ e, requestErrorCheck r = some e →
          e.status_code = some 500)
        ∧ (∀ e, streamErrorCheck r = some e →
          e.status_code = some 500))
    ∧ (requestErrorCheck r).isSome = true
    ∧ (streamErrorCheck r).isSome = true := by
  unfold requestErrorCheck streamErrorCheck
  rw [if_pos h, if_pos h]
  unfold raise_for_status
  split_ifs <;> simp_all [subclassStatusCode]

/-- Witness for the amended C7: a concrete 404 raises on both paths with
the fixed class code 404, and a concrete 599 is surfaced with stored
code 500 on the unary path. -/
theorem C7_error_propagation_amended_witness :
    ((404 : Int) ≥ 400)
    ∧ ((requestErrorCheck ⟨404, "nope", none⟩).isSome = true)
    ∧ ((streamErrorCheck ⟨404, "nope", none⟩).isSome = true)
    ∧ ((⟨.notFoundError, .jstr "nope", some 404, none⟩ :
        MLXRErr).status_code = subclassStatusCode .notFoundError)
    ∧ ((⟨.serverError, .jstr "boom", some 500, none⟩ :
        MLXRErr).status_code = some 500) :=
  ⟨by norm_num,
   (C7_error_propagation_amended ⟨404, "nope", none⟩ (by norm_num)).2.2.2.2.2.1,
   (C7_error_propagation_amended ⟨404, "nope", none⟩
     (by norm_num)).2.2.2.2.2.2,
   (C7_error_propagation_amended ⟨404, "nope", none⟩ (by norm_num)).2.2.1
     ⟨.notFoundError, .jstr "nope", some 404, none⟩ rfl (by decide),
   ((C7_error_propagation_amended ⟨599, "boom", none⟩ (by norm_num)).2.2.2.2.1
     (by norm_num)).1 ⟨.serverError, .jstr "boom", some 500, none⟩ rfl⟩

/-- A line that starts with `data: ` is not blank after stripping. -/
theorem pyStartsWith_data_ne_empty (s : String)
    (h : pyStartsWith s "data: " = true) : ¬ s = "" := by
  intro he
  subst he
  exact absurd h (by decide)

/-- A line that starts with `{` is not blank after stripping. -/
theorem pyStartsWith_brace_ne_empty (s : String)
    (h : pyStartsWith s "\x7b" = true) : ¬ s = "" := by
  intro he
  subst he
  exact absurd h (by decide)

/-- A line that starts with `{` cannot also start with `data: `, so a
brace-leading line always reaches the newline-delimited branch of the
decode loop. -/
theorem pyStartsWith_brace_not_data (s : String)
    (h : pyStartsWith s "\x7b" = true) :
    pyStartsWith s "data: " = false := by
  unfold pyStartsWith at h ⊢
  rw [show ("\x7b" : String).data = ['\x7b'] from rfl] at h
  rw [show ("data: " : String).data = ['d', 'a', 't', 'a', ':', ' ']
    from rfl]
  generalize hd : s.data = cs at h ⊢
  cases cs with
  | nil => exact absurd h (by decide)
  | cons c tl =>
    simp only [List.isPrefixOf, Bool.and_eq_true, beq_iff_eq] at h
    obtain ⟨hc, -⟩ := h
    subst hc
    simp only [List.isPrefixOf, Bool.and_eq_false_iff,
      beq_eq_false_iff_ne]
    left
    decide

/-- Decomposition of the decode loop over a prefix of event-stream
payload lines (each blank, or `data: `-prefixed with a non-sentinel
payload): the prefix contributes its well-formed payloads as events and
its malformed payloads as warnings, and decoding continues with the
suffix. -/
theorem decodeLines_sse_segment (parse : String → Except String J)
    (pre suffix : List String)
    (h : ∀ l ∈ pre, pyStrip l = "" ∨
      (pyStartsWith (pyStrip l) "data: " = true
        ∧ pyDrop (pyStrip l) 6 ≠ "[DONE]")) :
    decodeLines parse (pre ++ suffix) =
      ⟨pre.filterMap (fun l =>
          if pyStartsWith (pyStrip l) "data: " then
            (parse (pyDrop (pyStrip l) 6)).toOption
          else none) ++ (decodeLines parse suffix).events,
       pre.filterMap (fun l =>
          if pyStartsWith (pyStrip l) "data: " then
            match parse (pyDrop (pyStrip l) 6) with
            | .ok _ => none
            | .error _ => some ("Malformed SSE data line encountered: "
                ++ pyDrop (pyStrip l) 6)
          else none) ++ (decodeLines parse suffix).warnings,
       (decodeLines parse suffix).err⟩ := by
  induction pre with
  | nil => simp
  | cons line pre ih =>
    have hline := h line (List.mem_cons_self line pre)
    have hpre := fun l hl => h l (List.mem_cons_of_mem line hl)
    rcases hline with hb | ⟨hsw, hnd⟩
    · have hrule : lineRule line = .blank := by simp [lineRule, hb]
      simp only [List.cons_append, decodeLines, hrule, List.append_eq]
      rw [ih hpre]
      simp [hb, show pyStartsWith "" "data: " = false from by decide]
    · have hne : ¬ pyStrip line = "" := pyStartsWith_data_ne_empty _ hsw
      have hrule : lineRule line = .eventStream := by
        simp [lineRule, hne, hsw]
      simp only [List.cons_append, decodeLines, hrule, List.append_eq]
      rw [if_neg hnd, ih hpre]
      cases hp : parse (pyDrop (pyStrip line) 6) with
      | ok j => simp [consEvent, hp, hsw, Except.toOption]
      | error e => simp [consWarning, hp, hsw, Except.toOption]

/-- C2: for an event-stream body — payload lines `data: `-prefixed with
non-sentinel payloads, interleaved with blank separator lines — followed
by the `data: [DONE]` sentinel, the decoder yields exactly the
well-formed payloads of the lines preceding the sentinel, in order, and
then terminates normally (everything after the sentinel is never
reached); each malformed payload among them is skipped with a
`logger.warning` diagnostic and no error is raised. -/
theorem C2_sse_decode (parse : String → Except String J)
    (pre rest : List String) (sent : String)
    (h : ∀ l ∈ pre, pyStrip l = "" ∨
      (pyStartsWith (pyStrip l) "data: " = true
        ∧ pyDrop (pyStrip l) 6 ≠ "[DONE]"))
    (hs : pyStrip sent = "data: [DONE]") :
    decodeLines parse (pre ++ sent :: rest) =
      ⟨pre.filterMap (fun l =>
          if pyStartsWith (pyStrip l) "data: " then
            (parse (pyDrop (pyStrip l) 6)).toOption
          else none),
       pre.filterMap (fun l =>
          if pyStartsWith (pyStrip l) "data: " then
            match parse (pyDrop (pyStrip l) 6) with
            | .ok _ => none
            | .error _ => some ("Malformed SSE data line encountered: "
                ++ pyDrop (pyStrip l) 6)
          else none),
       none⟩ := by
  rw [decodeLines_sse_segment parse pre (sent :: rest) h]
  have hrule : lineRule sent = .eventStream := by
    simp [lineRule, hs,
      show ¬ ("data: [DONE]" : String) = "" from by decide,
      show pyStartsWith "data: [DONE]" "data: " = true from by decide]
  have hdone : decodeLines parse (sent :: rest)
      = (⟨[], [], none⟩ : StreamEvents J) := by
    simp only [decodeLines, hrule, hs]
    rw [if_pos (show pyDrop "data: [DONE]" 6 = "[DONE]" from by decide)]
  rw [hdone]
  simp

/-- Witness for C2: a body with one well-formed payload, a blank
separator, one malformed payload and the sentinel, followed by a line
that must never be reached. -/
theorem C2_sse_decode_witness :
    decodeLines toyParse
        ["data: \x7b\x7d", "  ", "data: oops", "data: [DONE]",
         "data: \x7b\x22a\x22:1\x7d"]
      = ⟨[.jobj []], ["Malformed SSE data line encountered: oops"],
         none⟩ :=
  (C2_sse_decode toyParse ["data: \x7b\x7d", "  ", "data: oops"]
    ["data: \x7b\x22a\x22:1\x7d"] "data: [DONE]" (by decide)
    (by decide)).trans rfl

/-- Decomposition of the decode loop over a prefix of well-formed
newline-delimited lines (each blank, or brace-leading and parsing
successfully): the prefix contributes its parses as events, no warnings,
and decoding continues with the suffix. -/
theorem decodeLines_ndjson_segment (parse : String → Except String J)
    (pre suffix : List String)
    (h : ∀ l ∈ pre, pyStrip l = "" ∨
      (pyStartsWith (pyStrip l) "\x7b" = true
        ∧ ∃ j, parse (pyStrip l) = .ok j)) :
    decodeLines parse (pre ++ suffix) =
      ⟨pre.filterMap (fun l =>
          if pyStartsWith (pyStrip l) "\x7b" then
            (parse (pyStrip l)).toOption
          else none) ++ (decodeLines parse suffix).events,
       (decodeLines parse suffix).warnings,
       (decodeLines parse suffix).err⟩ := by
  induction pre with
  | nil => simp
  | cons line pre ih =>
    have hline := h line (List.mem_cons_self line pre)
    have hpre := fun l hl => h l (List.mem_cons_of_mem line hl)
    rcases hline with hb | ⟨hsw, j, hj⟩
    · have hrule : lineRule line = .blank := by simp [lineRule, hb]
      simp only [List.cons_append, decodeLines, hrule, List.append_eq]
      rw [ih hpre]
      simp [hb, show pyStartsWith "" "\x7b" = false from by decide]
    · have hne : ¬ pyStrip line = "" := pyStartsWith_brace_ne_empty _ hsw
      have hnd : pyStartsWith (pyStrip line) "data: " = false :=
        pyStartsWith_brace_not_data _ hsw
      have hrule : lineRule line = .newlineDelimited := by
        simp [lineRule, hne, hnd, hsw]
      simp only [List.cons_append, decodeLines, hrule, List.append_eq]
      rw [ih hpre]
      simp [consEvent, hj, hsw, Except.toOption]

/-- C3: for a newline-delimited body (every non-blank line begins with an
opening brace, per the framing definition), the decoder yields one JSON
object per valid line, in order; and when a malformed brace-leading line
follows a well-formed prefix, the decoder yields exactly the events of
the prefix and raises `MLXRStreamError` (stream corruption), yielding
nothing after the malformed line. -/
theorem C3_ndjson_decode (parse : String → Except String J)
    (pre rest : List String) (bad : String) (e : String)
    (h : ∀ l ∈ pre, pyStrip l = "" ∨
      (pyStartsWith (pyStrip l) "\x7b" = true
        ∧ ∃ j, parse (pyStrip l) = .ok j)) :
    (decodeLines parse pre =
      ⟨pre.filterMap (fun l =>
          if pyStartsWith (pyStrip l) "\x7b" then
            (parse (pyStrip l)).toOption
          else none), [], none⟩)
    ∧ (pyStartsWith (pyStrip bad) "\x7b" = true →
        parse (pyStrip bad) = .error e →
        decodeLines parse (pre ++ bad :: rest) =
          ⟨pre.filterMap (fun l =>
              if pyStartsWith (pyStrip l) "\x7b" then
                (parse (pyStrip l)).toOption
              else none), [],
           some ⟨.streamError, .jstr ("Failed to parse JSON: " ++ e),
             none, none⟩⟩) := by
  constructor
  · have := decodeLines_ndjson_segment parse pre [] h
    rw [List.append_nil] at this
    rw [this]
    simp [decodeLines]
  · intro hsw hbad
    rw [decodeLines_ndjson_segment parse pre (bad :: rest) h]
    have hne : ¬ pyStrip bad = "" := pyStartsWith_brace_ne_empty _ hsw
    have hnd : pyStartsWith (pyStrip bad) "data: " = false :=
      pyStartsWith_brace_not_data _ hsw
    have hrule : lineRule bad = .newlineDelimited := by
      simp [lineRule, hne, hnd, hsw]
    have hfail : decodeLines parse (bad :: rest)
        = (⟨[], [], some ⟨.streamError,
            .jstr ("Failed to parse JSON: " ++ e), none, none⟩⟩ :
            StreamEvents J) := by
      simp only [decodeLines, hrule, hbad]
    rw [hfail]
    simp

/-- Witness for C3: a clean two-object body decodes fully, and a body
whose second line is malformed yields the first event, then the
stream-corruption error, and never reaches the third line. -/
theorem C3_ndjson_decode_witness :
    (decodeLines toyParse
        ["\x7b\x22a\x22:1\x7d", "", "\x7b\x22b\x22:2\x7d"]
      = ⟨[.jobj [("a", .jnum 1)], .jobj [("b", .jnum 2)]], [], none⟩)
    ∧ (decodeLines toyParse
        (["\x7b\x22a\x22:1\x7d"] ++ "\x7bnope" :: ["\x7b\x7d"])
      = ⟨[.jobj [("a", .jnum 1)]], [],
         some ⟨.streamError,
           .jstr "Failed to parse JSON: Expecting value: \x7bnope",
           none, none⟩⟩) := by
  constructor
  · exact ((C3_ndjson_decode toyParse
      ["\x7b\x22a\x22:1\x7d", "", "\x7b\x22b\x22:2\x7d"] [] "" ""
      (by intro l hl
          simp only [List.mem_cons, List.not_mem_nil, or_false] at hl
          rcases hl with rfl | rfl | rfl
          · exact Or.inr ⟨by decide, .jobj [("a", .jnum 1)], rfl⟩
          · exact Or.inl (by decide)
          · exact Or.inr ⟨by decide, .jobj [("b", .jnum 2)], rfl⟩)).1).trans
      rfl
  · exact (((C3_ndjson_decode toyParse ["\x7b\x22a\x22:1\x7d"]
      ["\x7b\x7d"] "\x7bnope" "Expecting value: \x7bnope"
      (by intro l hl
          simp only [List.mem_cons, List.not_mem_nil, or_false] at hl
          rcases hl with rfl
          · exact Or.inr ⟨by decide, .jobj [("a", .jnum 1)], rfl⟩)).2
      (by decide) rfl)).trans rfl

/-- C10: a stripped non-blank line beginning neither with `data: ` nor
with an opening brace is silently discarded by the decode loop, in both
the blocking and the async transports: decoding with the line is decoding
without it — no event, no error, no diagnostic, no termination — and in
particular such a line is not treated as a malformed newline-delimited
line. -/
theorem C10_unrecognised_line_skipped (parse : String → Except String J)
    (l : String) (rest : List String)
    (h1 : ¬ pyStrip l = "")
    (h2 : pyStartsWith (pyStrip l) "data: " = false)
    (h3 : pyStartsWith (pyStrip l) "\x7b" = false) :
    decodeLines parse (l :: rest) = decodeLines parse rest
    ∧ asyncDecodeLines parse (l :: rest) = asyncDecodeLines parse rest := by
  have hrule : lineRule l = .skip := by simp [lineRule, h1, h2, h3]
  constructor
  · simp only [decodeLines, hrule]
  · simp only [asyncDecodeLines]
    rw [if_neg h1, if_neg (by simp [h2]), if_neg (by simp [h3])]

/-- Witness for C10: an SSE `event:` field line is dropped without any
effect on the decoded stream. -/
theorem C10_unrecognised_line_skipped_witness :
    decodeLines toyParse ["event: message", "data: \x7b\x7d"]
      = decodeLines toyParse ["data: \x7b\x7d"]
    ∧ asyncDecodeLines toyParse ["event: message", "data: \x7b\x7d"]
      = asyncDecodeLines toyParse ["data: \x7b\x7d"] :=
  C10_unrecognised_line_skipped toyParse "event: message"
    ["data: \x7b\x7d"] (by decide) (by decide) (by decide)

/-- The blocking and async decode loops compute the same function of the
body lines. -/
theorem decode_eq_asyncDecode (parse : String → Except String J) :
    ∀ lines, decodeLines parse lines = asyncDecodeLines parse lines := by
  intro lines
  induction lines with
  | nil => rfl
  | cons line rest ih =>
    by_cases h1 : pyStrip line = ""
    · have hrule : lineRule line = .blank := by simp [lineRule, h1]
      simp only [decodeLines, asyncDecodeLines, hrule]
      rw [if_pos h1]
      exact ih
    · by_cases h2 : pyStartsWith (pyStrip line) "data: " = true
      · have hrule : lineRule line = .eventStream := by
          simp [lineRule, h1, h2]
        simp only [decodeLines, asyncDecodeLines, hrule]
        rw [if_neg h1, if_pos h2]
        by_cases h4 : pyDrop (pyStrip line) 6 = "[DONE]"
        · rw [if_pos h4, if_pos h4]
        · rw [if_neg h4, if_neg h4]
          cases hp : parse (pyDrop (pyStrip line) 6) with
          | ok j => rw [ih]
          | error e => rw [ih]
      · by_cases h3 : pyStartsWith (pyStrip line) "\x7b" = true
        · have hrule : lineRule line = .newlineDelimited := by
            simp [lineRule, h1, h2, h3]
          simp only [decodeLines, asyncDecodeLines, hrule]
          rw [if_neg h1, if_neg h2, if_pos h3]
          cases hp : parse (pyStrip line) with
          | ok j => rw [ih]
          | error e => rfl
        · have hrule : lineRule line = .skip := by
            simp [lineRule, h1, h2, h3]
          simp only [decodeLines, asyncDecodeLines, hrule]
          rw [if_neg h1, if_neg h2, if_neg h3]
          exact ih

/-- C9: for every method, path, request body, network outcome and
sequence of response body lines, the blocking transport and the async
transport produce identical outcomes — the same decoded events in the
same order, the same diagnostics, and the same error classification —
on both the streaming and the unary paths. -/
theorem C9_sync_async_equivalence (parse : String → Except String J)
    (method path : String) (body : Option JValue) (ev : NetEvent)
    (bodyLines : List String) :
    streamCall parse method path body ev bodyLines
      = asyncStreamCall parse method path body ev bodyLines
    ∧ requestCall method path body ev
      = asyncRequestCall method path body ev := by
  constructor
  · cases ev with
    | got r =>
      simp only [streamCall, asyncStreamCall]
      cases streamErrorCheck r with
      | none => exact decode_eq_asyncDecode parse bodyLines
      | some e => rfl
    | timeoutExc m => rfl
    | connectExc m => rfl
    | httpExc m => rfl
  · cases ev <;> rfl

/-- C1 counterexample: the decoding rule applied to a line is NOT fixed
by the call site's endpoint family — it is inferred per line from the
line's leading bytes.  Within one streamed body (one call site, one
fixed convention) a brace-leading line is decoded by the
newline-delimited rule while a `data: `-prefixed line is handled by the
event-stream rule: here the sentinel `data: [DONE]` terminates the
stream after the brace-leading line was yielded, and the third line is
never reached. -/
theorem C1_framing_counterexample :
    lineRule "data: \x7b\x7d" = .eventStream
    ∧ lineRule "\x7b\x7d" = .newlineDelimited
    ∧ lineRule "data: \x7b\x7d" ≠ lineRule "\x7b\x7d"
    ∧ decodeLines toyParse
        ["\x7b\x7d", "data: [DONE]", "data: \x7b\x22a\x22:1\x7d"]
      = ⟨[.jobj []], [], none⟩ :=
  ⟨by decide, by decide, by decide, rfl⟩

/-- C1 as amended: there is a single stream decoder shared by all call
sites — its outcome does not depend on the method or path of the call,
only on the response — and the framing rule applied to each line is
determined by the line's own leading bytes after stripping (`data: `
prefix → event-stream rule, `{` prefix → newline-delimited rule, blank
or unrecognised → ignored), identically for dialect A and dialect B
endpoints. -/
theorem C1_framing_amended (parse : String → Except String J)
    (m1 p1 m2 p2 : String) (b1 b2 : Option JValue) (ev : NetEvent)
    (bodyLines : List String) (line : String) (rest : List String) :
    streamCall parse m1 p1 b1 ev bodyLines
      = streamCall parse m2 p2 b2 ev bodyLines
    ∧ (lineRule line = .blank →
        decodeLines parse (line :: rest) = decodeLines parse rest)
    ∧ (lineRule line = .skip →
        decodeLines parse (line :: rest) = decodeLines parse rest)
    ∧ (lineRule line = .eventStream →
        decodeLines parse (line :: rest) =
          (if pyDrop (pyStrip line) 6 = "[DONE]" then ⟨[], [], none⟩
           else
             match parse (pyDrop (pyStrip line) 6) with
             | .ok j => consEvent j (decodeLines parse rest)
             | .error _ =>
               consWarning ("Malformed SSE data line encountered: "
                   ++ pyDrop (pyStrip line) 6)
                 (decodeLines parse rest)))
    ∧ (lineRule line = .newlineDelimited →
        decodeLines parse (line :: rest) =
          (match parse (pyStrip line) with
           | .ok j => consEvent j (decodeLines parse rest)
           | .error e =>
             ⟨[], [], some ⟨.streamError,
               .jstr ("Failed to parse JSON: " ++ e), none, none⟩⟩)) := by
  refine ⟨?_, ?_, ?_, ?_, ?_⟩
  · cases ev <;> rfl
  · intro h
    simp only [decodeLines, h]
  · intro h
    simp only [decodeLines, h]
  · intro h
    simp only [decodeLines, h]
  · intro h
    simp only [decodeLines, h]

/-- Witness for the amended C1: the same brace-leading line is decoded
by the newline-delimited rule regardless of the endpoint the stream was
requested from. -/
theorem C1_framing_amended_witness :
    streamCall toyParse "POST" "/v1/chat/completions" none
        (.got ⟨200, "", none⟩) ["\x7b\x7d"]
      = streamCall toyParse "POST" "/api/generate" none
        (.got ⟨200, "", none⟩) ["\x7b\x7d"]
    ∧ decodeLines toyParse ["\x7b\x7d"] =
        (match toyParse (pyStrip "\x7b\x7d") with
         | .ok j => consEvent j (decodeLines toyParse [])
         | .error e =>
           ⟨[], [], some ⟨.streamError,
             .jstr ("Failed to parse JSON: " ++ e), none, none⟩⟩) :=
  ⟨(C1_framing_amended toyParse "POST" "/v1/chat/completions" "POST"
      "/api/generate" none none (.got ⟨200, "", none⟩) ["\x7b\x7d"]
      "" []).1,
   (C1_framing_amended toyParse "POST" "/v1/chat/completions" "POST"
      "/api/generate" none none (.got ⟨200, "", none⟩) ["\x7b\x7d"]
      "\x7b\x7d" []).2.2.2.2 (by decide)⟩

/-- `jGet` on the empty dict. -/
theorem jGet_nil (k : String) : jGet [] k = none := rfl

/-- `jGet` through a cons cell. -/
theorem jGet_cons (a : String) (b : JValue) (t : List (String × JValue))
    (k : String) :
    jGet ((a, b) :: t) k = if a = k then some b else jGet t k := by
  by_cases h : a = k
  · have hb : (a == k) = true := beq_iff_eq.mpr h
    simp [jGet, List.find?, hb, h]
  · have hb : (a == k) = false := beq_eq_false_iff_ne.mpr h
    simp [jGet, List.find?, hb, h]

/-- `jGet` after a Python dict assignment `d[k] = v`. -/
theorem jGet_dictSet (fs : List (String × JValue)) (k : String)
    (v : JValue) (k' : String) :
    jGet (dictSet fs k v) k' = if k = k' then some v else jGet fs k' := by
  induction fs with
  | nil => simp [dictSet, jGet_cons]
  | cons p rest ih =>
    obtain ⟨k0, v0⟩ := p
    simp only [dictSet]
    by_cases h0 : k0 = k
    · rw [if_pos h0]
      subst h0
      by_cases h : k0 = k' <;> simp [jGet_cons, h]
    · rw [if_neg h0]
      rw [jGet_cons, jGet_cons, ih]
      by_cases h : k = k'
      · subst h
        have : ¬ k0 = k := h0
        simp [this]
      · by_cases h' : k0 = k' <;> simp [h', h]

/-- Looking up a different key through a conditional-assignment layer. -/
theorem jGet_optSet_ne (d : List (String × JValue)) (k : String)
    (o : Option JValue) (k' : String) (h : ¬ k = k') :
    jGet (optSet d k o) k' = jGet d k' := by
  cases o <;> simp [optSet, jGet_dictSet, h]

/-- Looking up the assigned key through a conditional-assignment layer,
when the key is not already bound underneath. -/
theorem jGet_optSet_self (d : List (String × JValue)) (k : String)
    (o : Option JValue) (h : jGet d k = none) :
    jGet (optSet d k o) k = o := by
  cases o <;> simp [optSet, jGet_dictSet, h]

/-- Looking up a different key through a guarded-assignment layer. -/
theorem jGet_ifSet_ne (c : Prop) [Decidable c]
    (d : List (String × JValue)) (k : String) (v : JValue) (k' : String)
    (h : ¬ k = k') :
    jGet (if c then dictSet d k v else d) k' = jGet d k' := by
  split_ifs <;> simp [jGet_dictSet, h]

/-- Looking up the assigned key through a guarded-assignment layer, when
the key is not already bound underneath. -/
theorem jGet_ifSet_self (c : Prop) [Decidable c]
    (d : List (String × JValue)) (k : String) (v : JValue)
    (h : jGet d k = none) :
    jGet (if c then dictSet d k v else d) k
      = if c then some v else none := by
  split_ifs <;> simp [jGet_dictSet, h]

/-- Variant of `jGet_ifSet_ne` with the branches flipped (the shape
`simp` produces for a negated guard). -/
theorem jGet_ifSet_ne_flip (c : Prop) [Decidable c]
    (d : List (String × JValue)) (k : String) (v : JValue) (k' : String)
    (h : ¬ k = k') :
    jGet (if c then d else dictSet d k v) k' = jGet d k' := by
  split_ifs <;> simp [jGet_dictSet, h]

/-- Variant of `jGet_ifSet_self` with the branches flipped. -/
theorem jGet_ifSet_self_flip (c : Prop) [Decidable c]
    (d : List (String × JValue)) (k : String) (v : JValue)
    (h : jGet d k = none) :
    jGet (if c then d else dictSet d k v) k
      = if c then none else some v := by
  split_ifs <;> simp [jGet_dictSet, h]

/-- C5 counterexample: a chat-create call with every parameter equal to
its dialect default nevertheless includes `temperature`, `top_p`, `n`
and `stream` in the wire body — parameters equal to their defaults are
not all omitted. -/
theorem C5_param_omission_counterexample :
    jGet (ChatCompletions.create_body "m" [] 0.7 1.0 1 false none none
        0.0 0.0 none none []) "temperature" = some (.jrat 0.7)
    ∧ jGet (ChatCompletions.create_body "m" [] 0.7 1.0 1 false none none
        0.0 0.0 none none []) "top_p" = some (.jrat 1.0)
    ∧ jGet (ChatCompletions.create_body "m" [] 0.7 1.0 1 false none none
        0.0 0.0 none none []) "n" = some (.jnum 1)
    ∧ jGet (ChatCompletions.create_body "m" [] 0.7 1.0 1 false none none
        0.0 0.0 none none []) "stream" = some (.jbool false) := by
  refine ⟨?_, ?_, ?_, ?_⟩ <;>
    simp [ChatCompletions.create_body, dictUpdate, jGet_optSet_ne,
      jGet_ifSet_ne, jGet_ifSet_ne_flip, jGet_cons, jGet_nil]

/-- C5 as amended: only the optional parameters are omitted at their
defaults — `stop`, `max_tokens`, `logit_bias`, `user` (and for text
completions `logprobs`, `best_of`) are present exactly when not `None`,
the penalties exactly when non-zero, `echo` exactly when true, each with
exactly the supplied value; the core parameters `model`,
`messages`/`prompt`, `temperature`, `top_p`, `n` and `stream` are always
present, whatever their values. -/
theorem C5_param_inclusion_amended (model : String)
    (messages : List JValue) (pr : JValue) (t tp pp fp : ℚ) (n : Int)
    (stream : Bool) (stop : Option JValue) (mt : Option Int)
    (lb : Option JValue) (user : Option String) (lp : Option Int)
    (echo : Bool) (bo : Option Int) :
    (jGet (ChatCompletions.create_body model messages t tp n stream stop
        mt pp fp lb user []) "model" = some (.jstr model))
    ∧ (jGet (ChatCompletions.create_body model messages t tp n stream
        stop mt pp fp lb user []) "messages" = some (.jarr messages))
    ∧ (jGet (ChatCompletions.create_body model messages t tp n stream
        stop mt pp fp lb user []) "temperature" = some (.jrat t))
    ∧ (jGet (ChatCompletions.create_body model messages t tp n stream
        stop mt pp fp lb user []) "top_p" = some (.jrat tp))
    ∧ (jGet (ChatCompletions.create_body model messages t tp n stream
        stop mt pp fp lb user []) "n" = some (.jnum n))
    ∧ (jGet (ChatCompletions.create_body model messages t tp n stream
        stop mt pp fp lb user []) "stream" = some (.jbool stream))
    ∧ (jGet (ChatCompletions.create_body model messages t tp n stream
        stop mt pp fp lb user []) "stop" = stop)
    ∧ (jGet (ChatCompletions.create_body model messages t tp n stream
        stop mt pp fp lb user []) "max_tokens" = mt.map JValue.jnum)
    ∧ (jGet (ChatCompletions.create_body model messages t tp n stream
        stop mt pp fp lb user []) "presence_penalty"
      = if pp ≠ 0.0 then some (.jrat pp) else none)
    ∧ (jGet (ChatCompletions.create_body model messages t tp n stream
        stop mt pp fp lb user []) "frequency_penalty"
      = if fp ≠ 0.0 then some (.jrat fp) else none)
    ∧ (jGet (ChatCompletions.create_body model messages t tp n stream
        stop mt pp fp lb user []) "logit_bias" = lb)
    ∧ (jGet (ChatCompletions.create_body model messages t tp n stream
        stop mt pp fp lb user []) "user" = user.map JValue.jstr)
    ∧ (jGet (Completions.create_body model pr t tp n stream stop mt pp
        fp lb user lp echo bo []) "prompt" = some pr)
    ∧ (jGet (Completions.create_body model pr t tp n stream stop mt pp
        fp lb user lp echo bo []) "temperature" = some (.jrat t))
    ∧ (jGet (Completions.create_body model pr t tp n stream stop mt pp
        fp lb user lp echo bo []) "presence_penalty"
      = if pp ≠ 0.0 then some (.jrat pp) else none)
    ∧ (jGet (Completions.create_body model pr t tp n stream stop mt pp
        fp lb user lp echo bo []) "logprobs" = lp.map JValue.jnum)
    ∧ (jGet (Completions.create_body model pr t tp n stream stop mt pp
        fp lb user lp echo bo []) "echo"
      = if echo then some (.jbool echo) else none)
    ∧ (jGet (Completions.create_body model pr t tp n stream stop mt pp
        fp lb user lp echo bo []) "best_of" = bo.map JValue.jnum) := by
  refine ⟨?_, ?_, ?_, ?_, ?_, ?_, ?_, ?_, ?_, ?_, ?_, ?_, ?_, ?_, ?_,
    ?_, ?_, ?_⟩ <;>
    simp [ChatCompletions.create_body, Completions.create_body,
      dictUpdate, jGet_optSet_ne, jGet_optSet_self, jGet_ifSet_ne,
      jGet_ifSet_self, jGet_ifSet_ne_flip, jGet_ifSet_self_flip,
      jGet_cons, jGet_nil]

/-- One choice object of the §8 chat scenario response. -/
def chatScenarioChoice (i : Int) (content : String) : JValue :=
  .jobj [("index", .jnum i),
    ("message", .jobj [("role", .jstr "assistant"),
      ("content", .jstr content)]),
    ("finish_reason", .jstr "stop")]

/-- The §8 chat scenario response body: two choices and a usage object
carrying the given prompt/completion/total token counts. -/
def chatScenarioBody (p c t : Int) : JValue :=
  .jobj [("id", .jstr "chatcmpl-1"),
    ("object", .jstr "chat.completion"),
    ("created", .jnum 0), ("model", .jstr "m"),
    ("choices", .jarr [chatScenarioChoice 0 "hi",
      chatScenarioChoice 1 "there"]),
    ("usage", .jobj [("prompt_tokens", .jnum p),
      ("completion_tokens", .jnum c), ("total_tokens", .jnum t)])]

/-- C8 counterexample: the layer does not make `total_tokens` equal to
prompt + completion.  A 2-choice response with `prompt_tokens=10` and
`completion_tokens=5` but `total_tokens=99` parses successfully and the
typed result's usage carries 99, not 15 — the `Usage` model has no
validator relating the three counts. -/
theorem C8_usage_counterexample :
    (ChatCompletions.createUnary []
        (.got ⟨200, "", some (chatScenarioBody 10 5 99)⟩)
      = .ok ⟨"chatcmpl-1", "chat.completion", 0, "m",
          [⟨0, ⟨"assistant", some "hi", none, none⟩, some "stop"⟩,
           ⟨1, ⟨"assistant", some "there", none, none⟩, some "stop"⟩],
          some ⟨10, 5, 99⟩⟩)
    ∧ (99 : Int) ≠ 15 :=
  ⟨rfl, by decide⟩

/-- C8 as amended: the typed chat result preserves the server-supplied
token counts verbatim — for the 2-choice scenario body with usage
`(p, c, t)` the result has exactly those two choices and usage exactly
`(p, c, t)`; the invariant total = prompt + completion therefore holds
exactly when the server body itself satisfies it, as in the §8 scenario
where `total_tokens = 15` arrives with 10 and 5. -/
theorem C8_usage_amended (p c t : Int) :
    (ChatCompletions.createUnary []
        (.got ⟨200, "", some (chatScenarioBody p c t)⟩)
      = .ok ⟨"chatcmpl-1", "chat.completion", 0, "m",
          [⟨0, ⟨"assistant", some "hi", none, none⟩, some "stop"⟩,
           ⟨1, ⟨"assistant", some "there", none, none⟩, some "stop"⟩],
          some ⟨p, c, t⟩⟩)
    ∧ (ChatCompletions.createUnary []
        (.got ⟨200, "", some (chatScenarioBody 10 5 15)⟩)
      = .ok ⟨"chatcmpl-1", "chat.completion", 0, "m",
          [⟨0, ⟨"assistant", some "hi", none, none⟩, some "stop"⟩,
           ⟨1, ⟨"assistant", some "there", none, none⟩, some "stop"⟩],
          some ⟨10, 5, 15⟩⟩) :=
  ⟨rfl, rfl⟩

end MLXR
